import Mathlib

/-!
Shallow embedding of the banking demo in `01pacotes/desafio.py`.

Modelling conventions:
* Python `float` amounts are modelled as `ℚ` (exact arithmetic; only
  comparisons, `+` and `-` occur in the source).
* `datetime.now()` is an ambient input: every operation that reads the clock
  takes the current instant (`DateTime`) or the current date (`dia × mes × ano`)
  as an explicit argument.
* `print(...)` side effects are reified: `sacar`/`depositar` return the message
  they print alongside the success flag and the updated object.
* Mutation of `self` is modelled by returning the updated structure.
* `Historico.adicionar_transacao` stores `datetime.now().strftime("%d-%m-%Y
  %H:%M:%S")` and `transacoes_do_dia` re-parses it with `strptime` on the same
  format; this round-trips the calendar-date fields exactly, so the stored
  timestamp is kept as a `DateTime` value and `transacoes_do_dia` compares its
  date projection.
-/

/-- A `datetime.now()` instant, to second resolution, as formatted and re-parsed
by `"%d-%m-%Y %H:%M:%S"`. -/
structure DateTime where
  dia : Nat
  mes : Nat
  ano : Nat
  hora : Nat
  minuto : Nat
  segundo : Nat
deriving DecidableEq

/-- Python `datetime.date()`: the calendar-date projection used by
`transacoes_do_dia`. -/
def DateTime.date (d : DateTime) : Nat × Nat × Nat :=
  (d.dia, d.mes, d.ano)

/-- One element of `Historico._transacoes`: the dict
`{"tipo": ..., "valor": ..., "data": ...}` built in `adicionar_transacao`. -/
structure RegistroTransacao where
  tipo : String
  valor : ℚ
  data : DateTime
deriving DecidableEq

/-- The `Transacao` class hierarchy (`Saque`, `Deposito`), each carrying its
`valor`. -/
inductive Transacao where
  | saque (valor : ℚ)
  | deposito (valor : ℚ)
deriving DecidableEq

/-- `transacao.__class__.__name__`, as recorded in the ledger dict. -/
def Transacao.tipo : Transacao → String
  | .saque _ => "Saque"
  | .deposito _ => "Deposito"

/-- The `valor` property of a `Transacao`. -/
def Transacao.valor : Transacao → ℚ
  | .saque v => v
  | .deposito v => v

/-- `Historico`: the per-account transaction log (`self._transacoes`). -/
structure Historico where
  transacoes : List RegistroTransacao
deriving DecidableEq

/-- `Historico.adicionar_transacao`: appends the dict
`{"tipo": class name, "valor": valor, "data": now}`. -/
def Historico.adicionar_transacao (h : Historico) (transacao : Transacao)
    (agora : DateTime) : Historico :=
  ⟨h.transacoes ++ [⟨transacao.tipo, transacao.valor, agora⟩]⟩

/-- `Historico.gerar_relatorio(tipo=None)`: yields the transactions whose
`"tipo"` matches `tipo` case-insensitively, or all of them when `tipo is None`.
The Python generator is finite and yields in list order, so it is modelled as
the corresponding list. -/
def Historico.gerar_relatorio (h : Historico) (tipo : Option String) :
    List RegistroTransacao :=
  h.transacoes.filter fun transacao =>
    match tipo with
    | none => true
    | some t => transacao.tipo.toLower == t.toLower

/-- `Historico.transacoes_do_dia`: the transactions whose stored timestamp,
re-parsed by `strptime`, has `.date()` equal to the current date `hoje`. -/
def Historico.transacoes_do_dia (h : Historico) (hoje : Nat × Nat × Nat) :
    List RegistroTransacao :=
  h.transacoes.filter fun t => t.data.date == hoje

/-- Base class `Conta`. `__init__` sets `_saldo = 0`, `_agencia = "0001"`.
The back-reference `_cliente` is omitted (it is never read by the operations
modelled here and would make the data cyclic). -/
structure Conta where
  saldo : ℚ
  numero : Nat
  agencia : String
  historico : Historico
deriving DecidableEq

/-- `Conta.sacar`: returns `(flag, updated account, printed message)`. -/
def Conta.sacar (c : Conta) (valor : ℚ) : Bool × Conta × String :=
  if valor ≤ 0 then
    (false, c, "\n@@@ Valor inválido! @@@")
  else if valor > c.saldo then
    (false, c, "\n@@@ Saldo insuficiente! @@@")
  else
    (true, { c with saldo := c.saldo - valor }, "\n=== Saque realizado com sucesso! ===")

/-- `Conta.depositar`: returns `(flag, updated account, printed message)`. -/
def Conta.depositar (c : Conta) (valor : ℚ) : Bool × Conta × String :=
  if valor ≤ 0 then
    (false, c, "\n@@@ Valor inválido! @@@")
  else
    (true, { c with saldo := c.saldo + valor }, "\n=== Depósito realizado com sucesso! ===")

/-- `ContaCorrente`: `Conta` plus `_limite` (default `500`) and
`_limite_saques` (default `3`). -/
structure ContaCorrente extends Conta where
  limite : ℚ
  limite_saques : Nat
deriving DecidableEq

/-- The count `numero_saques` computed at the top of `ContaCorrente.sacar`:
the number of ledger entries whose `"tipo"` is `"Saque"`. -/
def ContaCorrente.numero_saques (cc : ContaCorrente) : Nat :=
  (cc.historico.transacoes.filter fun t => t.tipo == "Saque").length

/-- `ContaCorrente.sacar`: checks the per-operation `limite`, then the
withdrawal-count cap, then delegates to `Conta.sacar` (`super().sacar`). -/
def ContaCorrente.sacar (cc : ContaCorrente) (valor : ℚ) :
    Bool × ContaCorrente × String :=
  if valor > cc.limite then
    (false, cc, "\n@@@ Limite de saque excedido! @@@")
  else if cc.numero_saques ≥ cc.limite_saques then
    (false, cc, "\n@@@ Limite de saques excedido! @@@")
  else
    let r := cc.toConta.sacar valor
    (r.1, { cc with toConta := r.2.1 }, r.2.2)

/-- The factory path `ContaCorrente.__init__` → `Conta.__init__` as used by
`criar_conta`: zero balance, empty ledger, `agencia = "0001"`; the CLI always
passes the defaults `limite = 500`, `limite_saques = 3`. -/
def ContaCorrente.nova_conta (numero : Nat) (limite : ℚ) (limite_saques : Nat) :
    ContaCorrente :=
  { saldo := 0, numero := numero, agencia := "0001", historico := ⟨[]⟩,
    limite := limite, limite_saques := limite_saques }

/-- `Saque.registrar` / `Deposito.registrar`: run the account mutation and, on
success only, append the transaction to the ledger of the account. The dynamic
`conta.sacar` call resolves to `ContaCorrente.sacar` (the only account class the
program instantiates); `depositar` is inherited from `Conta`. -/
def Transacao.registrar (t : Transacao) (conta : ContaCorrente)
    (agora : DateTime) : ContaCorrente :=
  match t with
  | .saque v =>
    let r := conta.sacar v
    if r.1 then
      { r.2.1 with
        toConta := { r.2.1.toConta with
          historico := r.2.1.historico.adicionar_transacao t agora } }
    else r.2.1
  | .deposito v =>
    let r := conta.toConta.depositar v
    if r.1 then
      { conta with
        toConta := { r.2.1 with
          historico := r.2.1.historico.adicionar_transacao t agora } }
    else { conta with toConta := r.2.1 }

/-- Whether the underlying balance mutation of `t` on `conta` would report
success (the boolean returned by `sacar`/`depositar`). -/
def Transacao.sucesso (t : Transacao) (conta : ContaCorrente) : Bool :=
  match t with
  | .saque v => (conta.sacar v).1
  | .deposito v => (conta.toConta.depositar v).1

/-- `Cliente`: owns `contas`; `realizar_transacao` does not read any of its own
fields. -/
structure Cliente where
  endereco : String
  contas : List ContaCorrente

/-- `Cliente.realizar_transacao`: rejects (returning the account unchanged)
when the ledger of the account already holds at least 2 entries dated today,
otherwise delegates to `transacao.registrar`. -/
def Cliente.realizar_transacao (_cliente : Cliente) (conta : ContaCorrente)
    (transacao : Transacao) (hoje : Nat × Nat × Nat) (agora : DateTime) :
    ContaCorrente :=
  if (conta.historico.transacoes_do_dia hoje).length ≥ 2 then conta
  else transacao.registrar conta agora

/-- A sequence of transaction requests, each arriving at some instant, applied
through `registrar` in order. -/
def processar (conta : ContaCorrente) : List (Transacao × DateTime) → ContaCorrente
  | [] => conta
  | (t, agora) :: resto => processar (t.registrar conta agora) resto

/-- The pair (sum of amounts of successful deposits, sum of amounts of
successful withdrawals) along a request sequence. -/
def somaSucessos (conta : ContaCorrente) :
    List (Transacao × DateTime) → ℚ × ℚ
  | [] => (0, 0)
  | (t, agora) :: resto =>
    let s := somaSucessos (t.registrar conta agora) resto
    match t with
    | .saque v => if t.sucesso conta then (s.1, s.2 + v) else s
    | .deposito v => if t.sucesso conta then (s.1 + v, s.2) else s

/-! ### Case lemmas for the guarded mutations -/

/-- `Conta.sacar` on a non-positive amount: invalid-value branch. -/
theorem Conta.sacar_invalido (c : Conta) (v : ℚ) (h : v ≤ 0) :
    c.sacar v = (false, c, "\n@@@ Valor inválido! @@@") := by
  unfold Conta.sacar
  rw [if_pos h]

/-- `Conta.sacar` on an amount above the balance: insufficient-balance branch
(or the invalid-value branch when the amount is also non-positive); either way
the flag is `false` and the account is unchanged. -/
theorem Conta.sacar_excede_saldo (c : Conta) (v : ℚ) (h : c.saldo < v) :
    (c.sacar v).1 = false ∧ (c.sacar v).2.1 = c := by
  unfold Conta.sacar
  split_ifs <;> simp_all

/-- `Conta.sacar` on a positive amount within the balance: success branch. -/
theorem Conta.sacar_ok (c : Conta) (v : ℚ) (h0 : 0 < v) (h : v ≤ c.saldo) :
    c.sacar v = (true, { c with saldo := c.saldo - v },
      "\n=== Saque realizado com sucesso! ===") := by
  unfold Conta.sacar
  rw [if_neg (not_le.mpr h0), if_neg (not_lt.mpr h)]

/-- A failed `Conta.sacar` leaves the account unchanged. -/
theorem Conta.sacar_falha_inalterada (c : Conta) (v : ℚ) (h : (c.sacar v).1 = false) :
    (c.sacar v).2.1 = c := by
  unfold Conta.sacar at h ⊢
  split_ifs at h ⊢ <;> simp_all

/-- A successful `Conta.sacar` means the amount was positive and within the
balance. -/
theorem Conta.sacar_sucesso_condicoes (c : Conta) (v : ℚ) (h : (c.sacar v).1 = true) :
    0 < v ∧ v ≤ c.saldo := by
  unfold Conta.sacar at h
  split_ifs at h with h1 h2 <;> simp_all

/-- `Conta.depositar` on a non-positive amount: invalid-value branch. -/
theorem Conta.depositar_invalido (c : Conta) (v : ℚ) (h : v ≤ 0) :
    c.depositar v = (false, c, "\n@@@ Valor inválido! @@@") := by
  unfold Conta.depositar
  rw [if_pos h]

/-- `Conta.depositar` on a positive amount: success branch. -/
theorem Conta.depositar_ok (c : Conta) (v : ℚ) (h : 0 < v) :
    c.depositar v = (true, { c with saldo := c.saldo + v },
      "\n=== Depósito realizado com sucesso! ===") := by
  unfold Conta.depositar
  rw [if_neg (not_le.mpr h)]

/-- A failed `Conta.depositar` leaves the account unchanged. -/
theorem Conta.depositar_fst_false (c : Conta) (v : ℚ)
    (h : (c.depositar v).1 = false) :
    c.depositar v = (false, c, "\n@@@ Valor inválido! @@@") := by
  unfold Conta.depositar at h ⊢
  split_ifs at h ⊢ <;> simp_all

/-- A successful `Conta.depositar` means the amount was positive. -/
theorem Conta.depositar_fst_true (c : Conta) (v : ℚ)
    (h : (c.depositar v).1 = true) : 0 < v := by
  unfold Conta.depositar at h
  split_ifs at h with h1 <;> simp_all

/-- `ContaCorrente.sacar` when the amount exceeds the per-operation limit:
first rejection branch, before any base check. -/
theorem ContaCorrente.sacar_limite_excedido (cc : ContaCorrente) (v : ℚ)
    (h : cc.limite < v) :
    cc.sacar v = (false, cc, "\n@@@ Limite de saque excedido! @@@") := by
  unfold ContaCorrente.sacar
  rw [if_pos h]

/-- `ContaCorrente.sacar` when the withdrawal-count cap is reached (and the
limit check passes): second rejection branch, before any base check. -/
theorem ContaCorrente.sacar_cap_excedido (cc : ContaCorrente) (v : ℚ)
    (h1 : v ≤ cc.limite) (h2 : cc.limite_saques ≤ cc.numero_saques) :
    cc.sacar v = (false, cc, "\n@@@ Limite de saques excedido! @@@") := by
  unfold ContaCorrente.sacar
  rw [if_neg (not_lt.mpr h1), if_pos h2]

/-- `ContaCorrente.sacar` delegates to `Conta.sacar` when both specific checks
pass. -/
theorem ContaCorrente.sacar_delega (cc : ContaCorrente) (v : ℚ)
    (h1 : v ≤ cc.limite) (h2 : cc.numero_saques < cc.limite_saques) :
    cc.sacar v = ((cc.toConta.sacar v).1,
      { cc with toConta := (cc.toConta.sacar v).2.1 }, (cc.toConta.sacar v).2.2) := by
  unfold ContaCorrente.sacar
  rw [if_neg (not_lt.mpr h1), if_neg (not_le.mpr h2)]

/-- A failed `ContaCorrente.sacar` leaves the account unchanged. -/
theorem ContaCorrente.sacar_fst_false (cc : ContaCorrente) (v : ℚ)
    (h : (cc.sacar v).1 = false) : (cc.sacar v).2.1 = cc := by
  unfold ContaCorrente.sacar Conta.sacar at h ⊢
  split_ifs at h ⊢ <;> simp_all

/-- A successful `ContaCorrente.sacar` means every check passed. -/
theorem ContaCorrente.sacar_fst_true (cc : ContaCorrente) (v : ℚ)
    (h : (cc.sacar v).1 = true) :
    v ≤ cc.limite ∧ cc.numero_saques < cc.limite_saques ∧ 0 < v ∧ v ≤ cc.saldo := by
  unfold ContaCorrente.sacar Conta.sacar at h
  split_ifs at h with h1 h2 h3 h4 <;> simp_all

/-! ### Lemmas about `Transacao.registrar` -/

/-- A withdrawal transaction whose `sacar` fails records nothing and leaves the
account exactly as it was. -/
theorem registrar_saque_falha (cc : ContaCorrente) (v : ℚ) (agora : DateTime)
    (h : (cc.sacar v).1 = false) :
    (Transacao.saque v).registrar cc agora = cc := by
  simp only [Transacao.registrar, h]
  simpa using ContaCorrente.sacar_fst_false cc v h

/-- A withdrawal transaction whose `sacar` succeeds debits the balance and
appends exactly one `"Saque"` entry. -/
theorem registrar_saque_sucesso (cc : ContaCorrente) (v : ℚ) (agora : DateTime)
    (h : (cc.sacar v).1 = true) :
    (Transacao.saque v).registrar cc agora =
      { cc with toConta := { cc.toConta with
          saldo := cc.saldo - v,
          historico := ⟨cc.historico.transacoes ++ [⟨"Saque", v, agora⟩]⟩ } } := by
  obtain ⟨h1, h2, h3, h4⟩ := ContaCorrente.sacar_fst_true cc v h
  have hs := ContaCorrente.sacar_delega cc v h1 h2
  rw [Conta.sacar_ok cc.toConta v h3 h4] at hs
  simp only [Transacao.registrar, hs]
  simp [Historico.adicionar_transacao, Transacao.tipo, Transacao.valor]

/-- A deposit transaction whose `depositar` fails records nothing and leaves
the account exactly as it was. -/
theorem registrar_deposito_falha (cc : ContaCorrente) (v : ℚ) (agora : DateTime)
    (h : (cc.toConta.depositar v).1 = false) :
    (Transacao.deposito v).registrar cc agora = cc := by
  have hd := Conta.depositar_fst_false cc.toConta v h
  simp only [Transacao.registrar, hd]
  simp

/-- A deposit transaction whose `depositar` succeeds credits the balance and
appends exactly one `"Deposito"` entry. -/
theorem registrar_deposito_sucesso (cc : ContaCorrente) (v : ℚ) (agora : DateTime)
    (h : 0 < v) :
    (Transacao.deposito v).registrar cc agora =
      { cc with toConta := { cc.toConta with
          saldo := cc.saldo + v,
          historico := ⟨cc.historico.transacoes ++ [⟨"Deposito", v, agora⟩]⟩ } } := by
  have hd := Conta.depositar_ok cc.toConta v h
  simp only [Transacao.registrar, hd]
  simp [Historico.adicionar_transacao, Transacao.tipo, Transacao.valor]


/-! ### The balance accounting invariant -/

/-- One `registrar` step: the balance stays non-negative, and it moves by
exactly the amount of the transaction when the mutation succeeds and not at
all when it fails. -/
theorem registrar_saldo (t : Transacao) (cc : ContaCorrente) (agora : DateTime)
    (h : 0 ≤ cc.saldo) :
    0 ≤ (t.registrar cc agora).saldo ∧
    (t.registrar cc agora).saldo = cc.saldo +
      (if t.sucesso cc then
        (match t with | .saque v => -v | .deposito v => v) else 0) := by
  cases t with
  | saque v =>
    by_cases hs : (cc.sacar v).1 = true
    · obtain ⟨h1, h2, h3, h4⟩ := ContaCorrente.sacar_fst_true cc v hs
      rw [registrar_saque_sucesso cc v agora hs]
      have hcond : (Transacao.saque v).sucesso cc = true := hs
      rw [if_pos hcond]
      exact ⟨by show 0 ≤ cc.saldo - v; linarith,
             by show cc.saldo - v = cc.saldo + -v; ring⟩
    · have hs' : (cc.sacar v).1 = false := by
        cases hb : (cc.sacar v).1 <;> simp_all
      rw [registrar_saque_falha cc v agora hs']
      have hcond : (Transacao.saque v).sucesso cc = false := hs'
      rw [if_neg (by simp [hcond])]
      exact ⟨h, by ring⟩
  | deposito v =>
    by_cases hs : (cc.toConta.depositar v).1 = true
    · have hv : 0 < v := Conta.depositar_fst_true cc.toConta v hs
      rw [registrar_deposito_sucesso cc v agora hv]
      have hcond : (Transacao.deposito v).sucesso cc = true := hs
      rw [if_pos hcond]
      exact ⟨by show 0 ≤ cc.saldo + v; linarith,
             by show cc.saldo + v = cc.saldo + v; rfl⟩
    · have hs' : (cc.toConta.depositar v).1 = false := by
        cases hb : (cc.toConta.depositar v).1 <;> simp_all
      rw [registrar_deposito_falha cc v agora hs']
      have hcond : (Transacao.deposito v).sucesso cc = false := hs'
      rw [if_neg (by simp [hcond])]
      exact ⟨h, by ring⟩

/-- Along any request sequence, starting from a non-negative balance: the final
balance is non-negative and equals the starting balance plus the successful
deposits minus the successful withdrawals. -/
theorem processar_saldo (reqs : List (Transacao × DateTime)) :
    ∀ cc : ContaCorrente, 0 ≤ cc.saldo →
      0 ≤ (processar cc reqs).saldo ∧
      (processar cc reqs).saldo =
        cc.saldo + (somaSucessos cc reqs).1 - (somaSucessos cc reqs).2 := by
  induction reqs with
  | nil =>
    intro cc h
    refine ⟨h, ?_⟩
    simp [processar, somaSucessos]
  | cons p resto ih =>
    intro cc h
    obtain ⟨t, agora⟩ := p
    obtain ⟨hpos, heq⟩ := registrar_saldo t cc agora h
    obtain ⟨ih1, ih2⟩ := ih (t.registrar cc agora) hpos
    have hp : processar cc ((t, agora) :: resto) =
        processar (t.registrar cc agora) resto := rfl
    refine ⟨by rw [hp]; exact ih1, ?_⟩
    rw [hp, ih2, heq]
    cases t with
    | saque v =>
      by_cases hs : (Transacao.saque v).sucesso cc = true
      · rw [if_pos hs]
        have hs1 : (somaSucessos cc ((Transacao.saque v, agora) :: resto)).1 =
            (somaSucessos ((Transacao.saque v).registrar cc agora) resto).1 := by
          simp [somaSucessos, hs]
        have hs2 : (somaSucessos cc ((Transacao.saque v, agora) :: resto)).2 =
            (somaSucessos ((Transacao.saque v).registrar cc agora) resto).2 + v := by
          simp [somaSucessos, hs]
        rw [hs1, hs2]
        ring
      · rw [if_neg hs]
        have hs1 : somaSucessos cc ((Transacao.saque v, agora) :: resto) =
            somaSucessos ((Transacao.saque v).registrar cc agora) resto := by
          simp [somaSucessos, hs]
        rw [hs1]
        ring
    | deposito v =>
      by_cases hs : (Transacao.deposito v).sucesso cc = true
      · rw [if_pos hs]
        have hs1 : (somaSucessos cc ((Transacao.deposito v, agora) :: resto)).1 =
            (somaSucessos ((Transacao.deposito v).registrar cc agora) resto).1 + v := by
          simp [somaSucessos, hs]
        have hs2 : (somaSucessos cc ((Transacao.deposito v, agora) :: resto)).2 =
            (somaSucessos ((Transacao.deposito v).registrar cc agora) resto).2 := by
          simp [somaSucessos, hs]
        rw [hs1, hs2]
        ring
      · rw [if_neg hs]
        have hs1 : somaSucessos cc ((Transacao.deposito v, agora) :: resto) =
            somaSucessos ((Transacao.deposito v).registrar cc agora) resto := by
          simp [somaSucessos, hs]
        rw [hs1]
        ring

/-! ### Concrete data used to exercise the theorems -/

/-- A fixed instant standing for a `datetime.now()` reading. -/
def instanteTeste : DateTime := ⟨12, 10, 2026, 9, 30, 0⟩

/-- A fresh checking account credited with 1000, default limit 500 and cap 3,
with an empty ledger. -/
def contaTeste : ContaCorrente :=
  { saldo := 1000, numero := 1, agencia := "0001", historico := ⟨[]⟩,
    limite := 500, limite_saques := 3 }

/-- A checking account whose ledger already records three withdrawals and
whose balance is ample. -/
def contaTresSaques : ContaCorrente :=
  { saldo := 1000, numero := 2, agencia := "0001",
    historico := ⟨[⟨"Saque", 10, instanteTeste⟩, ⟨"Saque", 20, instanteTeste⟩,
      ⟨"Saque", 30, instanteTeste⟩]⟩,
    limite := 500, limite_saques := 3 }

/-- A checking account with the cap reached and a low balance. -/
def contaCapESaldoBaixo : ContaCorrente :=
  { saldo := 100, numero := 3, agencia := "0001",
    historico := ⟨[⟨"Saque", 10, instanteTeste⟩, ⟨"Saque", 20, instanteTeste⟩,
      ⟨"Saque", 30, instanteTeste⟩]⟩,
    limite := 500, limite_saques := 3 }

/-- A checking account whose ledger holds two entries dated 12-10-2026. -/
def contaDoisHoje : ContaCorrente :=
  { saldo := 1000, numero := 4, agencia := "0001",
    historico := ⟨[⟨"Deposito", 10, instanteTeste⟩, ⟨"Saque", 5, instanteTeste⟩]⟩,
    limite := 500, limite_saques := 3 }

/-- A customer owning no account; `realizar_transacao` never reads the owned
accounts. -/
def clienteTeste : Cliente := ⟨"Rua Alfa, 1", []⟩

/-! ### The claims -/

/-- C1: for every account (any number, limit, cap), after any sequence of
deposit and withdrawal requests, successful or not, the balance equals the sum
of the amounts of the successful deposits minus the sum of the amounts of the
successful withdrawals, and the balance is never negative (every prefix of a
sequence being itself a sequence, this covers every intermediate state). -/
theorem C1_saldo_soma_sucessos (numero : Nat) (limite : ℚ) (cap : Nat)
    (reqs : List (Transacao × DateTime)) :
    (processar (ContaCorrente.nova_conta numero limite cap) reqs).saldo =
      (somaSucessos (ContaCorrente.nova_conta numero limite cap) reqs).1 -
      (somaSucessos (ContaCorrente.nova_conta numero limite cap) reqs).2 ∧
    0 ≤ (processar (ContaCorrente.nova_conta numero limite cap) reqs).saldo := by
  obtain ⟨h1, h2⟩ := processar_saldo reqs (ContaCorrente.nova_conta numero limite cap)
    (le_refl 0)
  refine ⟨?_, h1⟩
  rw [h2]
  show (0:ℚ) + _ - _ = _
  ring

/-- C2: `registrar` appends a ledger entry exactly when the underlying
`sacar`/`depositar` reported success; when it fails, the whole account
(balance and ledger) is left untouched. -/
theorem C2_registrar_acoplado_ao_sucesso (t : Transacao) (cc : ContaCorrente)
    (agora : DateTime) :
    ((t.registrar cc agora).historico.transacoes =
      if t.sucesso cc then cc.historico.transacoes ++ [⟨t.tipo, t.valor, agora⟩]
      else cc.historico.transacoes) ∧
    (t.sucesso cc = false → t.registrar cc agora = cc) := by
  cases t with
  | saque v =>
    by_cases hs : (cc.sacar v).1 = true
    · have hcond : (Transacao.saque v).sucesso cc = true := hs
      rw [registrar_saque_sucesso cc v agora hs, if_pos hcond]
      refine ⟨rfl, fun hfalse => ?_⟩
      rw [hcond] at hfalse
      exact absurd hfalse (by simp)
    · have hs' : (cc.sacar v).1 = false := by
        cases hb : (cc.sacar v).1 <;> simp_all
      have hcond : (Transacao.saque v).sucesso cc = false := hs'
      rw [registrar_saque_falha cc v agora hs', if_neg (by simp [hcond])]
      exact ⟨rfl, fun _ => rfl⟩
  | deposito v =>
    by_cases hs : (cc.toConta.depositar v).1 = true
    · have hv : 0 < v := Conta.depositar_fst_true cc.toConta v hs
      have hcond : (Transacao.deposito v).sucesso cc = true := hs
      rw [registrar_deposito_sucesso cc v agora hv, if_pos hcond]
      refine ⟨rfl, fun hfalse => ?_⟩
      rw [hcond] at hfalse
      exact absurd hfalse (by simp)
    · have hs' : (cc.toConta.depositar v).1 = false := by
        cases hb : (cc.toConta.depositar v).1 <;> simp_all
      have hcond : (Transacao.deposito v).sucesso cc = false := hs'
      rw [registrar_deposito_falha cc v agora hs', if_neg (by simp [hcond])]
      exact ⟨rfl, fun _ => rfl⟩

/-- C2 witness: on `contaTeste`, a withdrawal of 2000 fails (above both limit
and balance) and `registrar` leaves the account untouched; the ledger equation
holds at a successful deposit. -/
theorem C2_registrar_acoplado_ao_sucesso_aplicado :
    ((Transacao.saque 2000).registrar contaTeste instanteTeste = contaTeste) ∧
    ((Transacao.deposito 50).registrar contaTeste instanteTeste).historico.transacoes =
      contaTeste.historico.transacoes ++ [⟨"Deposito", 50, instanteTeste⟩] := by
  constructor
  · exact (C2_registrar_acoplado_ao_sucesso (Transacao.saque 2000) contaTeste
      instanteTeste).2 (by decide)
  · have h := (C2_registrar_acoplado_ao_sucesso (Transacao.deposito 50) contaTeste
      instanteTeste).1
    rw [if_pos (by decide : (Transacao.deposito 50).sucesso contaTeste = true)] at h
    exact h

/-- C3: `realizar_transacao` is a no-op on the account (balance and ledger
unchanged) when its ledger already holds at least 2 entries dated today, and
otherwise delegates to the `registrar` of the transaction — for either
transaction kind. -/
theorem C3_limite_diario_de_transacoes (cliente : Cliente) (conta : ContaCorrente)
    (transacao : Transacao) (hoje : Nat × Nat × Nat) (agora : DateTime) :
    (2 ≤ (conta.historico.transacoes_do_dia hoje).length →
      cliente.realizar_transacao conta transacao hoje agora = conta) ∧
    ((conta.historico.transacoes_do_dia hoje).length < 2 →
      cliente.realizar_transacao conta transacao hoje agora =
        transacao.registrar conta agora) := by
  unfold Cliente.realizar_transacao
  constructor
  · intro h2
    rw [if_pos h2]
  · intro h2
    rw [if_neg (by omega)]

/-- C3 witness: with two entries dated 12-10-2026 a third transaction that day
is a no-op; with an empty ledger the transaction is delegated. -/
theorem C3_limite_diario_de_transacoes_aplicado :
    clienteTeste.realizar_transacao contaDoisHoje (Transacao.deposito 50)
      (12, 10, 2026) instanteTeste = contaDoisHoje ∧
    clienteTeste.realizar_transacao contaTeste (Transacao.deposito 50)
      (12, 10, 2026) instanteTeste =
      (Transacao.deposito 50).registrar contaTeste instanteTeste := by
  constructor
  · exact (C3_limite_diario_de_transacoes clienteTeste contaDoisHoje
      (Transacao.deposito 50) (12, 10, 2026) instanteTeste).1 (by decide)
  · exact (C3_limite_diario_de_transacoes clienteTeste contaTeste
      (Transacao.deposito 50) (12, 10, 2026) instanteTeste).2 (by decide)

/-- C4: a checking account with cap 3 whose ledger already records 3
withdrawals rejects the next withdrawal request regardless of the balance;
the rejected request changes neither balance nor ledger. -/
theorem C4_quarto_saque_rejeitado (cc : ContaCorrente) (v : ℚ) (agora : DateTime)
    (hcap : cc.limite_saques = 3) (hn : 3 ≤ cc.numero_saques) :
    (cc.sacar v).1 = false ∧ (cc.sacar v).2.1 = cc ∧
    (Transacao.saque v).registrar cc agora = cc := by
  have hfalse : (cc.sacar v).1 = false := by
    cases hb : (cc.sacar v).1
    · rfl
    · obtain ⟨_, h2, _, _⟩ := ContaCorrente.sacar_fst_true cc v hb
      omega
  exact ⟨hfalse, ContaCorrente.sacar_fst_false cc v hfalse,
    registrar_saque_falha cc v agora hfalse⟩

/-- C4 witness: `contaTresSaques` (balance 1000, three recorded withdrawals)
rejects a withdrawal of 100 and is left untouched. -/
theorem C4_quarto_saque_rejeitado_aplicado :
    (contaTresSaques.sacar 100).1 = false ∧
    (contaTresSaques.sacar 100).2.1 = contaTresSaques ∧
    (Transacao.saque 100).registrar contaTresSaques instanteTeste =
      contaTresSaques :=
  C4_quarto_saque_rejeitado contaTresSaques 100 instanteTeste (by decide) (by decide)

/-- C5: a withdrawal request above the current balance returns the failure
flag, leaves the balance unchanged and appends no ledger entry — for a base
account, and for a checking account where `registrar` then records nothing. -/
theorem C5_saque_acima_do_saldo :
    (∀ (c : Conta) (v : ℚ), c.saldo < v →
      (c.sacar v).1 = false ∧ (c.sacar v).2.1 = c) ∧
    (∀ (cc : ContaCorrente) (v : ℚ) (agora : DateTime), cc.saldo < v →
      (cc.sacar v).1 = false ∧ (cc.sacar v).2.1 = cc ∧
      (Transacao.saque v).registrar cc agora = cc) := by
  constructor
  · exact fun c v h => Conta.sacar_excede_saldo c v h
  · intro cc v agora h
    have hfalse : (cc.sacar v).1 = false := by
      cases hb : (cc.sacar v).1
      · rfl
      · obtain ⟨_, _, _, h4⟩ := ContaCorrente.sacar_fst_true cc v hb
        linarith
    exact ⟨hfalse, ContaCorrente.sacar_fst_false cc v hfalse,
      registrar_saque_falha cc v agora hfalse⟩

/-- C5 witness: on `contaTeste` (balance 1000) a withdrawal request of 1500
fails and changes nothing, for the base operation and through `registrar`. -/
theorem C5_saque_acima_do_saldo_aplicado :
    ((contaTeste.toConta.sacar 1500).1 = false ∧
      (contaTeste.toConta.sacar 1500).2.1 = contaTeste.toConta) ∧
    ((contaTeste.sacar 1500).1 = false ∧ (contaTeste.sacar 1500).2.1 = contaTeste ∧
      (Transacao.saque 1500).registrar contaTeste instanteTeste = contaTeste) :=
  ⟨C5_saque_acima_do_saldo.1 contaTeste.toConta 1500 (by decide),
   C5_saque_acima_do_saldo.2 contaTeste 1500 instanteTeste (by decide)⟩

/-- C6: with per-operation limit 500, a withdrawal of 501 is rejected by the
limit check even when the balance suffices: the failure flag and the
limit-exceeded message are returned, the account is unchanged, and
`registrar` appends no ledger entry. -/
theorem C6_limite_500_rejeita_501 (cc : ContaCorrente) (agora : DateTime)
    (hlim : cc.limite = 500) (hsaldo : 501 ≤ cc.saldo) :
    cc.sacar 501 = (false, cc, "\n@@@ Limite de saque excedido! @@@") ∧
    (Transacao.saque 501).registrar cc agora = cc := by
  have h : cc.limite < 501 := by rw [hlim]; norm_num
  have hs := ContaCorrente.sacar_limite_excedido cc 501 h
  exact ⟨hs, registrar_saque_falha cc 501 agora (by rw [hs])⟩

/-- C6 witness: `contaTeste` has limit 500 and balance 1000; withdrawing 501
is rejected with the limit-exceeded message and records nothing. -/
theorem C6_limite_500_rejeita_501_aplicado :
    contaTeste.sacar 501 =
      (false, contaTeste, "\n@@@ Limite de saque excedido! @@@") ∧
    (Transacao.saque 501).registrar contaTeste instanteTeste = contaTeste :=
  C6_limite_500_rejeita_501 contaTeste instanteTeste (by rfl) (by decide)

/-- C7: in `ContaCorrente.sacar` the specific checks run before the base
checks: a request failing both the per-operation limit and a base check
(positivity `v ≤ 0` or balance `saldo < v`) reports the limit-exceeded
message, and one failing both the cap and a base check reports the
cap-exceeded message — in both cases the base messages are never produced
and the account is returned unchanged. -/
theorem C7_ordem_das_validacoes (cc : ContaCorrente) (v : ℚ) :
    (cc.limite < v → (v ≤ 0 ∨ cc.saldo < v) →
      cc.sacar v = (false, cc, "\n@@@ Limite de saque excedido! @@@")) ∧
    (v ≤ cc.limite → cc.limite_saques ≤ cc.numero_saques →
      (v ≤ 0 ∨ cc.saldo < v) →
      cc.sacar v = (false, cc, "\n@@@ Limite de saques excedido! @@@")) := by
  constructor
  · intro h1 _h2
    exact ContaCorrente.sacar_limite_excedido cc v h1
  · intro h1 h2 _h3
    exact ContaCorrente.sacar_cap_excedido cc v h1 h2

/-- C7 witness: on `contaTeste` a withdrawal of 1500 exceeds both limit and
balance and reports the limit message; on `contaCapESaldoBaixo` a withdrawal
of 200 exceeds both cap and balance and reports the cap message; on
`contaTresSaques` a non-positive request of -5 fails both the cap and the
positivity base check and reports the cap message. -/
theorem C7_ordem_das_validacoes_aplicado :
    contaTeste.sacar 1500 =
      (false, contaTeste, "\n@@@ Limite de saque excedido! @@@") ∧
    contaCapESaldoBaixo.sacar 200 =
      (false, contaCapESaldoBaixo, "\n@@@ Limite de saques excedido! @@@") ∧
    contaTresSaques.sacar (-5) =
      (false, contaTresSaques, "\n@@@ Limite de saques excedido! @@@") :=
  ⟨(C7_ordem_das_validacoes contaTeste 1500).1 (by decide) (by decide),
   (C7_ordem_das_validacoes contaCapESaldoBaixo 200).2 (by decide) (by decide)
     (by decide),
   (C7_ordem_das_validacoes contaTresSaques (-5)).2 (by decide) (by decide)
     (by decide)⟩

/-- C8: `gerar_relatorio` with a kind filter yields exactly the ledger entries
whose kind matches case-insensitively, in append order (a sublist of the
ledger); with no filter it yields every entry; `transacoes_do_dia` likewise
selects exactly the entries dated today, in order. Both are read-only: the
ledger they are computed from is untouched. -/
theorem C8_gerar_relatorio_filtra (h : Historico) (tipo : String)
    (hoje : Nat × Nat × Nat) :
    h.gerar_relatorio none = h.transacoes ∧
    (h.gerar_relatorio (some tipo)).Sublist h.transacoes ∧
    (∀ t, t ∈ h.gerar_relatorio (some tipo) ↔
      t ∈ h.transacoes ∧ t.tipo.toLower = tipo.toLower) ∧
    (h.transacoes_do_dia hoje).Sublist h.transacoes ∧
    (∀ t, t ∈ h.transacoes_do_dia hoje ↔
      t ∈ h.transacoes ∧ t.data.date = hoje) := by
  refine ⟨?_, List.filter_sublist _, ?_, List.filter_sublist _, ?_⟩
  · simp [Historico.gerar_relatorio]
  · intro t
    simp [Historico.gerar_relatorio, List.mem_filter]
  · intro t
    simp [Historico.transacoes_do_dia, List.mem_filter]

/-- C9: the withdrawal cap counts only `"Saque"` entries actually recorded in
the ledger: a failed withdrawal request records nothing and so consumes no
cap, a successful one raises the recorded count by exactly one, and while
fewer than `limite_saques` withdrawals are recorded the cap check does not
fire — the call delegates to the base balance check no matter how many
requests failed before. -/
theorem C9_cap_conta_apenas_saques_registrados (cc : ContaCorrente) (v : ℚ)
    (agora : DateTime) :
    ((cc.sacar v).1 = false → (Transacao.saque v).registrar cc agora = cc) ∧
    ((cc.sacar v).1 = true →
      ((Transacao.saque v).registrar cc agora).numero_saques =
        cc.numero_saques + 1) ∧
    (v ≤ cc.limite → cc.numero_saques < cc.limite_saques →
      cc.sacar v = ((cc.toConta.sacar v).1,
        { cc with toConta := (cc.toConta.sacar v).2.1 },
        (cc.toConta.sacar v).2.2)) := by
  refine ⟨fun h => registrar_saque_falha cc v agora h, fun h => ?_,
    fun h1 h2 => ContaCorrente.sacar_delega cc v h1 h2⟩
  rw [registrar_saque_sucesso cc v agora h]
  unfold ContaCorrente.numero_saques
  simp [List.filter_append]

/-- C9 witness: on `contaTeste` a failed request (2000) records nothing, a
successful one (100) raises the recorded withdrawal count by one, and with no
recorded withdrawal the call delegates to the base check. -/
theorem C9_cap_conta_apenas_saques_registrados_aplicado :
    (Transacao.saque 2000).registrar contaTeste instanteTeste = contaTeste ∧
    ((Transacao.saque 100).registrar contaTeste instanteTeste).numero_saques =
      contaTeste.numero_saques + 1 ∧
    contaTeste.sacar 100 = ((contaTeste.toConta.sacar 100).1,
      { contaTeste with toConta := (contaTeste.toConta.sacar 100).2.1 },
      (contaTeste.toConta.sacar 100).2.2) :=
  ⟨(C9_cap_conta_apenas_saques_registrados contaTeste 2000 instanteTeste).1
      (by decide),
   (C9_cap_conta_apenas_saques_registrados contaTeste 100 instanteTeste).2.1
      (by decide),
   (C9_cap_conta_apenas_saques_registrados contaTeste 100 instanteTeste).2.2
      (by decide) (by decide)⟩

/-- C10: deposits are never subject to the checking-account limit or cap: for
any account state (any balance, any ledger, any limit and cap) and any amount
v > 0, `depositar` succeeds and credits exactly v, and `Deposito.registrar`
then appends exactly one `"Deposito"` entry. -/
theorem C10_deposito_incondicional (cc : ContaCorrente) (v : ℚ)
    (agora : DateTime) (hv : 0 < v) :
    (cc.toConta.depositar v).1 = true ∧
    (cc.toConta.depositar v).2.1.saldo = cc.saldo + v ∧
    (Transacao.deposito v).registrar cc agora =
      { cc with toConta := { cc.toConta with
          saldo := cc.saldo + v,
          historico := ⟨cc.historico.transacoes ++ [⟨"Deposito", v, agora⟩]⟩ } } := by
  have hd := Conta.depositar_ok cc.toConta v hv
  exact ⟨by rw [hd], by rw [hd], registrar_deposito_sucesso cc v agora hv⟩

/-- C10 witness: `contaTresSaques` has its withdrawal cap exhausted, yet a
deposit of 250 succeeds, credits exactly 250 and appends one entry. -/
theorem C10_deposito_incondicional_aplicado :
    (contaTresSaques.toConta.depositar 250).1 = true ∧
    (contaTresSaques.toConta.depositar 250).2.1.saldo =
      contaTresSaques.saldo + 250 ∧
    (Transacao.deposito 250).registrar contaTresSaques instanteTeste =
      { contaTresSaques with toConta := { contaTresSaques.toConta with
          saldo := contaTresSaques.saldo + 250,
          historico := ⟨contaTresSaques.historico.transacoes ++
            [⟨"Deposito", 250, instanteTeste⟩]⟩ } } :=
  C10_deposito_incondicional contaTresSaques 250 instanteTeste (by decide)

/-- C1 witness: the accounting identity at the scenario deposit 1000,
withdraw 1500 (fails), withdraw 500. -/
theorem C1_saldo_soma_sucessos_aplicado :
    (processar (ContaCorrente.nova_conta 1 500 3)
      [(Transacao.deposito 1000, instanteTeste), (Transacao.saque 1500, instanteTeste),
       (Transacao.saque 500, instanteTeste)]).saldo =
      (somaSucessos (ContaCorrente.nova_conta 1 500 3)
        [(Transacao.deposito 1000, instanteTeste), (Transacao.saque 1500, instanteTeste),
         (Transacao.saque 500, instanteTeste)]).1 -
      (somaSucessos (ContaCorrente.nova_conta 1 500 3)
        [(Transacao.deposito 1000, instanteTeste), (Transacao.saque 1500, instanteTeste),
         (Transacao.saque 500, instanteTeste)]).2 ∧
    0 ≤ (processar (ContaCorrente.nova_conta 1 500 3)
      [(Transacao.deposito 1000, instanteTeste), (Transacao.saque 1500, instanteTeste),
       (Transacao.saque 500, instanteTeste)]).saldo :=
  C1_saldo_soma_sucessos 1 500 3
    [(Transacao.deposito 1000, instanteTeste), (Transacao.saque 1500, instanteTeste),
     (Transacao.saque 500, instanteTeste)]

/-- C8 witness: the unfiltered report of a two-entry ledger is the ledger
itself. -/
theorem C8_gerar_relatorio_filtra_aplicado :
    (Historico.mk [⟨"Saque", 5, instanteTeste⟩, ⟨"Deposito", 7, instanteTeste⟩]).gerar_relatorio
      none = [⟨"Saque", 5, instanteTeste⟩, ⟨"Deposito", 7, instanteTeste⟩] :=
  (C8_gerar_relatorio_filtra
    ⟨[⟨"Saque", 5, instanteTeste⟩, ⟨"Deposito", 7, instanteTeste⟩]⟩ "saque"
    (12, 10, 2026)).1
